import Mathlib

/-!
Verification of the download-link resolution pipeline of the ebook-finder
repository.  The TypeScript scrapers and API routes are shallowly embedded:
pure string/DOM logic becomes Lean functions over lists of anchors, and the
effectful steps (HTTP fetches, browser automation) are abstracted as
environments that fix what each external call would return, while the
embedding tracks which calls happen and faithfully reproduces the control
flow around them.
-/

namespace EbookFinder

/-- JavaScript `String.prototype.includes` on a list of characters:
`true` when `pat` occurs as a contiguous sublist of `s`. -/
def listContainsSub (pat : List Char) : List Char → Bool
  | [] => pat.isEmpty
  | c :: cs => List.isPrefixOf pat (c :: cs) || listContainsSub pat cs

/-- JavaScript `s.includes(pat)` for strings. -/
def strContains (s pat : String) : Bool :=
  listContainsSub pat.data s.data

/-- Characters of a host captured by the regex fragment `[^\/]+`:
everything up to (excluding) the next slash. -/
def takeHost : List Char → List Char
  | [] => []
  | c :: cs => if c = '/' then [] else c :: takeHost cs

/-- Search for the JavaScript regex `(https?:\/\/[^\/]+)` anywhere in the
character list, returning the captured origin (scheme plus host). -/
def findOriginAux : List Char → Option String
  | [] => none
  | c :: cs =>
    if List.isPrefixOf "https://".data (c :: cs) then
      let host := takeHost ((c :: cs).drop 8)
      if host.isEmpty then findOriginAux cs
      else some ("https://" ++ String.mk host)
    else if List.isPrefixOf "http://".data (c :: cs) then
      let host := takeHost ((c :: cs).drop 7)
      if host.isEmpty then findOriginAux cs
      else some ("http://" ++ String.mk host)
    else findOriginAux cs

/-- Embedding of `url.match(/(https?:\/\/[^\/]+)/)`, as used throughout the
scrapers to recover the mirror origin from a page URL. -/
def matchOrigin (s : String) : Option String :=
  findOriginAux s.data

/-- JavaScript `s.toUpperCase()` (ASCII range, as all compared tokens are
ASCII). -/
def jsToUpper (s : String) : String :=
  String.mk (s.data.map Char.toUpper)

/-- JavaScript `s.toLowerCase()` (ASCII range). -/
def jsToLower (s : String) : String :=
  String.mk (s.data.map Char.toLower)

/-- ASCII whitespace stripped by JavaScript `s.trim()`. -/
def isWhitespaceChar (c : Char) : Bool :=
  c == ' ' || c == '\t' || c == '\n' || c == '\r'

/-- Drop leading whitespace characters. -/
def trimLeftList : List Char → List Char
  | [] => []
  | c :: cs => if isWhitespaceChar c then trimLeftList cs else c :: cs

/-- JavaScript `s.trim()`. -/
def jsTrim (s : String) : String :=
  String.mk (((trimLeftList s.data).reverse |> trimLeftList).reverse)

/-- JavaScript `s.startsWith(pre)`. -/
def jsStartsWith (s pre : String) : Bool :=
  List.isPrefixOf pre.data s.data

/-- One anchor element of a rendered page: its text content, its `href`
attribute, and whether Playwright currently reports it visible. -/
structure Anchor where
  text : String
  href : String
  visible : Bool := true
deriving DecidableEq, Repr

/-- URL absolutization used by the scrapers:
`href.startsWith('http') ? href : origin + href`. -/
def mkFullUrl (origin href : String) : String :=
  if jsStartsWith href "http" then href else origin ++ href

/-! ## `extractGetLinkFromPage` (libgen-browser, C1)

The helper that scans a rendered ads.php page for the genuine GET download
link.  Its primary loop (over `page.$$('a[href*="/get.php"]')`) demands the
documented triple condition (md5+key href pattern, visibility, GET text);
when that loop finds nothing the source falls back to
`page.$('a[href*="/get.php"]:has-text("GET")')`, which checks neither
visibility nor the `&key=` parameter. -/

/-- Condition of the primary loop of `extractGetLinkFromPage`:
`href.includes('/get.php?md5=') && href.includes('&key=') && isVisible &&
text?.toUpperCase().includes('GET')`. -/
def legitGetCondition (l : Anchor) : Bool :=
  strContains l.href "/get.php?md5=" && strContains l.href "&key=" &&
    l.visible && strContains (jsToUpper l.text) "GET"

/-- Primary loop of `extractGetLinkFromPage`: walk the `get.php` links in
document order and return the absolutized href of the first one passing
`legitGetCondition` (the early `return` fires only when the base URL yields
an origin, exactly as in the source). -/
def getLinkLoop (baseUrl : String) : List Anchor → Option String
  | [] => none
  | l :: rest =>
    if legitGetCondition l then
      match matchOrigin baseUrl with
      | some o => some (mkFullUrl o l.href)
      | none => getLinkLoop baseUrl rest
    else getLinkLoop baseUrl rest

/-- Selector `a[href*="/get.php"]` used to collect the candidate links. -/
def getPhpHrefCondition (l : Anchor) : Bool :=
  strContains l.href "/get.php"

/-- Playwright selector `a[href*="/get.php"]:has-text("GET")` used by the
fallback branch: `has-text` is a case-insensitive substring match. -/
def fallbackGetCondition (l : Anchor) : Bool :=
  strContains l.href "/get.php" && strContains (jsToLower l.text) "get"

/-- Embedding of `extractGetLinkFromPage(page, baseUrl)` over the anchors of the page:
first the triple-condition loop over the `get.php`-href anchors, then the
source's fallback `page.$('a[href*="/get.php"]:has-text("GET")')`, each hit
absolutized against the origin extracted from `baseUrl`. -/
def extractGetLinkFromPage (links : List Anchor) (baseUrl : String) : Option String :=
  match getLinkLoop baseUrl (links.filter getPhpHrefCondition) with
  | some u => some u
  | none =>
    match links.find? fallbackGetCondition with
    | some l =>
      match matchOrigin baseUrl with
      | some o => some (mkFullUrl o l.href)
      | none => none
    | none => none

/-! ## `playwrightGetDownload` (libgen-playwright, C2)

The top-level Playwright resolver.  The external effects are fixed by an
environment: whether `chromium.launch` throws, whether `page.goto` throws,
what `findDownloadLink` returns, and which URLs the `request` listener
captured.  The trace counts browser launches and `browser.close()` calls.
In the source the whole body sits in a `try` whose `catch` merely logs and
rethrows; `await browser.close()` appears only after `findDownloadLink`
returns, so a throwing navigation skips it. -/

/-- External behaviour fixed for one `playwrightGetDownload` run. -/
structure PwEnv where
  launchThrows : Bool
  gotoThrows : Bool
  findResult : Option String
  capturedUrls : List String
deriving DecidableEq, Repr

/-- How many times a browser was launched and closed during one run. -/
structure BrowserTrace where
  launches : Nat
  closes : Nat
deriving DecidableEq, Repr

/-- Embedding of `playwrightGetDownload(startUrl, config)`: launch, navigate, scan via
`findDownloadLink`, close the browser, then return the found link, else the
first captured download URL, else throw.  Thrown errors (launch, goto) are
rethrown by the `catch` block without closing the browser. -/
def playwrightGetDownload (env : PwEnv) : Except String String × BrowserTrace :=
  if env.launchThrows then
    (Except.error "Browser launch failed", ⟨0, 0⟩)
  else if env.gotoThrows then
    (Except.error "Navigation timeout", ⟨1, 0⟩)
  else
    match env.findResult with
    | some link => (Except.ok link, ⟨1, 1⟩)
    | none =>
      match env.capturedUrls with
      | u :: _ => (Except.ok u, ⟨1, 1⟩)
      | [] => (Except.error "No download link found after Playwright navigation", ⟨1, 1⟩)

/-! ## `extractLibgenGetLink` (libgen-playwright, C3)

The ads.php GET-link handler with the two-step anti-bot interaction.  The
environment fixes whether the first click opens a popup, whether a
`download` event fires during the second attempt, and the page URL after
that attempt.  The trace records click/goto counts and the popup registry's
length at the two observation points, plus how many `popup.close()` calls
were issued.  In the source the popup array is append-only: closing popups
does not remove them, and the second attempt is `page.goto(fullUrl)`, not a
second `link.click()`. -/

/-- External behaviour fixed for the interaction inside
`extractLibgenGetLink`. -/
structure ClickEnv where
  popupOpens : Bool
  downloadEventUrl : Option String
  finalUrl : String
deriving DecidableEq, Repr

/-- Observable interaction trace of one `extractLibgenGetLink` run. -/
structure ClickTrace where
  clicks : Nat
  gotos : Nat
  popupsAfterFirstClick : Nat
  popupCloseCalls : Nat
  popupsFinal : Nat
deriving DecidableEq, Repr

/-- Text condition of `extractLibgenGetLink`'s loop:
`text.trim().toUpperCase() === 'GET' || text.toUpperCase().includes('GET')`. -/
def getTextCondition (l : Anchor) : Bool :=
  (jsToUpper (jsTrim l.text)) == "GET" || strContains (jsToUpper l.text) "GET"

/-- Embedding of `extractLibgenGetLink(page, baseUrl, popups)`: find the first anchor
with GET text and a `/get.php` href, absolutize it, click once (possibly
opening a popup), close every popup in the registry if one appeared, then
navigate the original page to the same URL and report the download-event
URL, the changed final URL, or the `get.php` URL itself. -/
def extractLibgenGetLink (links : List Anchor) (baseUrl : String) (popups0 : Nat)
    (env : ClickEnv) : Option String × ClickTrace :=
  match links with
  | [] => (none, ⟨0, 0, popups0, 0, popups0⟩)
  | l :: rest =>
    if getTextCondition l then
      if strContains l.href "/get.php" then
        match matchOrigin baseUrl with
        | some o =>
          let fullUrl := mkFullUrl o l.href
          let popups1 := popups0 + (if env.popupOpens then 1 else 0)
          let closeCalls := if popups0 < popups1 then popups1 else 0
          let result :=
            match env.downloadEventUrl with
            | some du => du
            | none =>
              if env.finalUrl ≠ fullUrl ∧ env.finalUrl ≠ "about:blank" then env.finalUrl
              else fullUrl
          (some result, ⟨1, 1, popups1, closeCalls, popups1⟩)
        | none => extractLibgenGetLink rest baseUrl popups0 env
      else extractLibgenGetLink rest baseUrl popups0 env
    else extractLibgenGetLink rest baseUrl popups0 env

/-! ## `smartGetLibgenDownload` (libgen-browser, C4)

The mirror-candidate chain of the smart resolver: Anna's Archive link
first, then randombook.org, then the site's own ads.php page.  Each
resolver is abstracted as a function from the link it is handed to the URL
it would produce; the run records which resolvers were invoked and with
what URL, in order. -/

/-- Cheerio selector `a[href*="annas-archive.org/md5"]` of the smart
resolver's step 2. -/
def annasCondition (l : Anchor) : Bool :=
  strContains l.href "annas-archive.org/md5"

/-- Cheerio selector `a[href*="randombook.org/book"]` of step 3. -/
def randombookCondition (l : Anchor) : Bool :=
  strContains l.href "randombook.org/book"

/-- Cheerio selector `a[href*="/ads.php?md5="]` of step 4. -/
def adsPhpCondition (l : Anchor) : Bool :=
  strContains l.href "/ads.php?md5="

/-- One mirror-resolver invocation, with the URL it was handed. -/
inductive MirrorEv
  | annas (url : String)
  | randombook (url : String)
  | adsPhp (url : String)
deriving DecidableEq, Repr

/-- Priority rank of a mirror-resolver invocation (lower = tried first). -/
def mirrorRank : MirrorEv → Nat
  | .annas _ => 0
  | .randombook _ => 1
  | .adsPhp _ => 2

/-- External behaviour fixed for one `smartGetLibgenDownload` run: the
anchors of the fetched file page (`none` when the fetch throws) and what
each mirror resolver would return. -/
structure SmartEnv where
  filePage : Option (List Anchor)
  annasResolve : String → Option String
  randombookResolve : String → Option String
  adsResolve : String → Option String

/-- Step 4 of `smartGetLibgenDownload`: the first `a[href*="/ads.php?md5="]`
anchor, absolutized against the file page's origin, handed to
`resolveAdsPhp`; on a miss the function throws its terminal error. -/
def smartStepAds (filePageUrl : String) (env : SmartEnv) (links : List Anchor) :
    Except String String × List MirrorEv :=
  match links.find? adsPhpCondition with
  | some l =>
    match matchOrigin filePageUrl with
    | some o =>
      let fullUrl := o ++ l.href
      match env.adsResolve fullUrl with
      | some u => (Except.ok u, [.adsPhp fullUrl])
      | none => (Except.error "No resolvable download mirrors found", [.adsPhp fullUrl])
    | none => (Except.error "No resolvable download mirrors found", [])
  | none => (Except.error "No resolvable download mirrors found", [])

/-- Step 3 of `smartGetLibgenDownload`: the first
`a[href*="randombook.org/book"]` anchor handed to `resolveRandombook`,
falling through to the ads.php step on a miss. -/
def smartStepRandombook (filePageUrl : String) (env : SmartEnv) (links : List Anchor) :
    Except String String × List MirrorEv :=
  match links.find? randombookCondition with
  | some l =>
    match env.randombookResolve l.href with
    | some u => (Except.ok u, [.randombook l.href])
    | none =>
      let r := smartStepAds filePageUrl env links
      (r.1, .randombook l.href :: r.2)
  | none => smartStepAds filePageUrl env links

/-- Embedding of `smartGetLibgenDownload(filePageUrl)`: fetch the file page, then try
Anna's Archive, randombook.org and ads.php in that order, returning the
first resolver hit and throwing once every planned candidate failed. -/
def smartGetLibgenDownload (filePageUrl : String) (env : SmartEnv) :
    Except String String × List MirrorEv :=
  match env.filePage with
  | none => (Except.error "Network error fetching file page", [])
  | some links =>
    match links.find? annasCondition with
    | some l =>
      match env.annasResolve l.href with
      | some u => (Except.ok u, [.annas l.href])
      | none =>
        let r := smartStepRandombook filePageUrl env links
        (r.1, .annas l.href :: r.2)
    | none => smartStepRandombook filePageUrl env links

/-! ## `resolveAdsPhp` selector loop (libgen-browser, C7)

The HTTP-only ads.php resolver runs an ordered cheerio selector list; for
each selector it looks only at the **first** matching anchor and accepts it
only when its href is an absolute `http` URL not containing `.onion`,
otherwise it moves on to the next selector. -/

/-- Href filter applied by `resolveAdsPhp` to a selector's first match:
`link.startsWith('http') && !link.includes('.onion')`. -/
def adsLinkFilter (href : String) : Bool :=
  jsStartsWith href "http" && !(strContains href ".onion")

/-- The `for (const selector of downloadSelectors)` loop of
`resolveAdsPhp`: take each selector's first match in document order and
return its href as soon as one passes `adsLinkFilter`. -/
def selectorLoop (doc : List Anchor) : List (Anchor → Bool) → Option String
  | [] => none
  | sel :: rest =>
    match doc.find? sel with
    | some l => if adsLinkFilter l.href then some l.href else selectorLoop doc rest
    | none => selectorLoop doc rest

/-- The ordered selector list of `resolveAdsPhp`:
`a:contains("GET")`, `a:contains("Download")`, `a[href*="/get.php"]`,
`a[href*="cloudflare"]`, `a[href*="ipfs"]` (cheerio `:contains` is a
case-sensitive substring test on the text). -/
def adsSelectors : List (Anchor → Bool) :=
  [fun l => strContains l.text "GET",
   fun l => strContains l.text "Download",
   fun l => strContains l.href "/get.php",
   fun l => strContains l.href "cloudflare",
   fun l => strContains l.href "ipfs"]

/-- Link extraction of `resolveAdsPhp(adsPhpUrl)` on a fetched ads.php
document. -/
def resolveAdsPhpExtract (doc : List Anchor) : Option String :=
  selectorLoop doc adsSelectors

/-! ## `getLibgenDownloadServerless` (libgen-serverless, C9)

The HTTP-only resolver used first by the download route.  The two fetched
pages are given by the environment; all URL construction is embedded from
the source, including the hard-coded `https://libgen.li` base used for
every relative href. -/

/-- External behaviour fixed for one serverless run: the anchors of the
fetched file.php page and of the fetched ads.php page (`none` = fetch
threw). -/
structure ServerlessEnv where
  filePage : Option (List Anchor)
  adsPage : Option (List Anchor)
deriving Repr

/-- Filter collecting ads links on file.php: `href.includes('/ads.php')`. -/
def serverlessAdsCondition (l : Anchor) : Bool :=
  strContains l.href "/ads.php"

/-- Filter collecting GET links on ads.php:
`text.trim().toUpperCase().includes('GET') || href.includes('/get.php')`. -/
def serverlessGetCondition (l : Anchor) : Bool :=
  strContains (jsToUpper (jsTrim l.text)) "GET" || strContains l.href "/get.php"

/-- Absolutization of the ads.php href (source lines 46-48): a relative
href is glued onto the hard-coded `https://libgen.li`, inserting a slash
when the href does not start with one. -/
def serverlessAdsUrl (href : String) : String :=
  if jsStartsWith href "http" then href
  else "https://libgen.li" ++ (if jsStartsWith href "/" then "" else "/") ++ href

/-- Absolutization of a GET href (source lines 76-82), again against the
hard-coded `https://libgen.li`. -/
def serverlessGetUrl (href : String) : String :=
  if jsStartsWith href "http" then href
  else if jsStartsWith href "/" then "https://libgen.li" ++ href
  else "https://libgen.li/" ++ href

/-- Embedding of `getLibgenDownloadServerless(filePhpUrl)`: fetch file.php, take the
first ads.php href, fetch the ads.php page at `serverlessAdsUrl`, take the
first GET href, and return its absolutized URL.  The second component is
the ads.php URL that was fetched, when the run got that far.  Every failure
is rethrown wrapped in the `LibGen serverless scraping failed:` prefix. -/
def getLibgenDownloadServerless (filePhpUrl : String) (env : ServerlessEnv) :
    Except String String × Option String :=
  match env.filePage with
  | none => (Except.error "LibGen serverless scraping failed: Network error", none)
  | some fl =>
    match fl.filter serverlessAdsCondition with
    | [] => (Except.error "LibGen serverless scraping failed: No ads.php link found on file.php page", none)
    | a0 :: _ =>
      let adsPhpUrl := serverlessAdsUrl a0.href
      match env.adsPage with
      | none => (Except.error "LibGen serverless scraping failed: Network error", some adsPhpUrl)
      | some al =>
        match al.filter serverlessGetCondition with
        | [] => (Except.error "LibGen serverless scraping failed: No GET download link found on ads.php page", some adsPhpUrl)
        | g0 :: _ => (Except.ok (serverlessGetUrl g0.href), some adsPhpUrl)

/-! ## `POST /api/download` (app/api/download/route.ts; C5, C6, C8, C10)

The orchestrating route handler.  For LibGen sources it runs the
serverless resolver, falls back to Playwright, and on double failure
returns a structured 400 carrying the original entry URL; trusted sources
are redirected untouched when their URL is an http URL; everything else is
proxied through an `axios.get` of the file.  The event list records, in
order, the serverless-scrape call, the Playwright call and the proxy
fetch. -/

/-- External call performed while serving one download request. -/
inductive Ev
  | serverless
  | playwrightEv
  | proxyFetch
deriving DecidableEq, Repr

/-- Where the bytes of a 200 file response came from: decoded from a
Playwright `data:` URI, or fetched from a remote URL. -/
inductive FileSrc
  | fromDataUri (uri : String)
  | fetched (url : String)
deriving DecidableEq, Repr

/-- Failure kind of the proxied `axios.get` of the file, mirroring the
branches of the route's catch block. -/
inductive FetchErr
  | timeout
  | notFound
  | other
deriving DecidableEq, Repr

/-- The error message chosen by the catch block for each axios failure. -/
def fetchErrMsg : FetchErr → String
  | .timeout => "Download timeout - file may be too large"
  | .notFound => "File not found at download URL"
  | .other => "Failed to download file from server"

/-- Response returned by the route handler. -/
inductive RouteResponse
  | badRequest (msg : String)
  | manualFallback (error message libgenUrl details : String)
  | redirectTo (downloadUrl fileName : String)
  | fileAttachment (src : FileSrc) (name : String)
  | serverError (msg : String) (downloadUrl : Option String)
deriving DecidableEq, Repr

/-- External behaviour fixed for one request: the serverless scraper's two
pages, the Playwright environment, and whether the proxied file fetch
succeeds (with its failure kind otherwise). -/
structure RouteEnv where
  filePage : Option (List Anchor)
  adsPage : Option (List Anchor)
  pw : PwEnv
  fetchOk : Bool
  fetchErr : FetchErr

/-- The `trustedSources` array of the route. -/
def trustedSources : List String :=
  ["archive", "openlibrary", "gutenberg", "standardebooks"]

/-- Embedding of `fileName || 'download.' + (fileFormat || 'bin')`. -/
def safeFileName (fileName fileFormat : String) : String :=
  if fileName ≠ "" then fileName
  else "download." ++ (if fileFormat ≠ "" then fileFormat else "bin")

/-- Tail of the POST handler after the LibGen block, with `actual` the
current download URL: the trusted-source redirect, the `data:` decode
branch, and the proxied fetch whose failure lands in the catch block that
attaches `actual` only when it is a non-`data:` http URL. -/
def finishDownload (source fileName fileFormat actual : String) (env : RouteEnv)
    (evs : List Ev) : RouteResponse × List Ev :=
  if trustedSources.contains source && jsStartsWith actual "http" then
    (.redirectTo actual fileName, evs)
  else if jsStartsWith actual "data:" then
    (.fileAttachment (.fromDataUri actual) (safeFileName fileName fileFormat), evs)
  else if env.fetchOk then
    (.fileAttachment (.fetched actual) (safeFileName fileName fileFormat), evs ++ [.proxyFetch])
  else
    (.serverError (fetchErrMsg env.fetchErr)
        (if actual ≠ "" ∧ jsStartsWith actual "http" = true ∧ jsStartsWith actual "data:" = false
          then some actual else none),
      evs ++ [.proxyFetch])

/-- The structured 400 returned when both LibGen scraping strategies
failed, carrying the original entry URL as `libgenUrl` and the first
(outer-catch) error's message as `details`. -/
def libgenManualResponse (dl details : String) : RouteResponse :=
  .manualFallback "LibGen downloads require manual access"
    "Could not automatically resolve download link. Try downloading directly from LibGen."
    dl details

/-- Embedding of `POST(request)` of the download route: reject an empty URL, run the
LibGen serverless-then-Playwright cascade when `source === 'libgen'`
(treating an empty or unchanged serverless result as a failure), then hand
the current URL to the shared tail. -/
def downloadPOST (source dl fileName fileFormat : String) (env : RouteEnv) :
    RouteResponse × List Ev :=
  if dl = "" then (.badRequest "Download URL is required", [])
  else if source = "libgen" then
    match (getLibgenDownloadServerless dl ⟨env.filePage, env.adsPage⟩).1 with
    | Except.ok u =>
      if u = "" ∨ u = dl then
        match (playwrightGetDownload env.pw).1 with
        | Except.ok p =>
          finishDownload source fileName fileFormat p env [.serverless, .playwrightEv]
        | Except.error _ =>
          (libgenManualResponse dl "Could not resolve LibGen download link",
            [.serverless, .playwrightEv])
      else finishDownload source fileName fileFormat u env [.serverless]
    | Except.error m =>
      match (playwrightGetDownload env.pw).1 with
      | Except.ok p =>
        finishDownload source fileName fileFormat p env [.serverless, .playwrightEv]
      | Except.error _ =>
        (libgenManualResponse dl m, [.serverless, .playwrightEv])
  else finishDownload source fileName fileFormat dl env []

/-- URL reporting actually guaranteed by the route's failure responses,
relative to the original entry URL `dl`: the LibGen manual-fallback 400
carries the original entry URL; a 500 carries a URL only when the current
candidate URL is a non-`data:` http URL (and that candidate may be the
resolved URL, not the original). -/
def failureUrlOk (dl : String) : RouteResponse → Prop
  | .manualFallback _ _ u _ => u = dl
  | .serverError _ (some u) => jsStartsWith u "http" = true ∧ jsStartsWith u "data:" = false
  | _ => True

/-! ## Theorems -/

/-- C1.  Counterexample: on an ads.php page whose only anchor has the exact
text `GET` and the href `/get.php?md5=abc&key=xyz` but is **not** visible,
`extractGetLinkFromPage` still classifies it as the download link (the
fallback selector ignores visibility), contradicting the claim that a link
satisfying only two of the three conditions is rejected. -/
theorem c1_invisible_link_accepted :
    extractGetLinkFromPage [⟨"GET", "/get.php?md5=abc&key=xyz", false⟩]
        "https://libgen.li/ads.php?md5=abc" =
      some "https://libgen.li/get.php?md5=abc&key=xyz" ∧
    Anchor.visible ⟨"GET", "/get.php?md5=abc&key=xyz", false⟩ = false := by
  exact ⟨rfl, rfl⟩

/-- C1 (amended).  Visibility and the `&key=` parameter are enforced only
by the primary loop: whenever the page holds any anchor whose href contains
`/get.php` and whose text contains `get` case-insensitively, and the base
URL yields an origin, `extractGetLinkFromPage` classifies some link — the
fallback fires even if every such anchor is invisible or lacks `&key=`. -/
theorem c1_two_conditions_suffice (links : List Anchor) (base : String) (l : Anchor)
    (hmem : l ∈ links)
    (hhref : strContains l.href "/get.php" = true)
    (htext : strContains (jsToLower l.text) "get" = true)
    (ho : (matchOrigin base).isSome = true) :
    (extractGetLinkFromPage links base).isSome = true := by
  unfold extractGetLinkFromPage
  cases hloop : getLinkLoop base (links.filter getPhpHrefCondition) with
  | some u => rfl
  | none =>
    have hfind : (links.find? fallbackGetCondition).isSome = true := by
      rw [List.find?_isSome]
      exact ⟨l, hmem, by simp [fallbackGetCondition, hhref, htext]⟩
    obtain ⟨l', hl'⟩ := Option.isSome_iff_exists.mp hfind
    obtain ⟨o, hoo⟩ := Option.isSome_iff_exists.mp ho
    rw [hl', hoo]
    rfl

/-- C1 witness: the two-of-three classification fires on a concrete page. -/
theorem c1_two_conditions_suffice_witness :
    (extractGetLinkFromPage [⟨"GET", "/get.php?md5=a&key=b", true⟩]
      "https://libgen.li/x").isSome = true :=
  c1_two_conditions_suffice [⟨"GET", "/get.php?md5=a&key=b", true⟩]
    "https://libgen.li/x" ⟨"GET", "/get.php?md5=a&key=b", true⟩
    (by decide) (by decide) (by decide) (by decide)

/-- C2.  Counterexample: when `page.goto` throws, `playwrightGetDownload`
rethrows without ever reaching `await browser.close()`, so the launched
browser is closed zero times — not exactly once on every exit path as
claimed. -/
theorem c2_navigation_error_leaks_browser :
    (playwrightGetDownload ⟨false, true, none, []⟩).2.launches = 1 ∧
    (playwrightGetDownload ⟨false, true, none, []⟩).2.closes = 0 ∧
    (playwrightGetDownload ⟨false, true, none, []⟩).1 = Except.error "Navigation timeout" := by
  exact ⟨rfl, rfl, rfl⟩

/-- C2 (amended).  The browser is launched and closed exactly once on every
run in which neither the launch nor the navigation throws — the link-found,
captured-URL and no-link (thrown after close) exits all tear down the
session; only an exception before `browser.close()` leaks it. -/
theorem c2_closed_once_without_navigation_error (env : PwEnv)
    (hl : env.launchThrows = false) (hg : env.gotoThrows = false) :
    (playwrightGetDownload env).2 = ⟨1, 1⟩ := by
  unfold playwrightGetDownload
  rw [hl, hg]
  simp only [Bool.false_eq_true, if_false]
  cases env.findResult with
  | some link => rfl
  | none =>
    cases env.capturedUrls with
    | nil => rfl
    | cons u us => rfl

/-- C2 witness: a concrete successful run closes the browser exactly once. -/
theorem c2_closed_once_without_navigation_error_witness :
    (playwrightGetDownload ⟨false, false, some "https://cdn.example/f.epub", []⟩).2 = ⟨1, 1⟩ :=
  c2_closed_once_without_navigation_error
    ⟨false, false, some "https://cdn.example/f.epub", []⟩ rfl rfl

/-- C3.  Counterexample: on a page whose GET link's first click opens a
popup, the popup registry's length goes 0 → 1 and stays 1 (entries are
closed but never removed), and the second attempt is a `page.goto`, so the
click is invoked exactly once, not twice, and the registry never returns
to 0 as the claim states. -/
theorem c3_single_click_registry_stays_one :
    (extractLibgenGetLink [⟨"GET", "/get.php?md5=a&key=b", true⟩]
        "https://libgen.li/ads.php?md5=a" 0
        ⟨true, some "https://cdn.example/f.epub", "about:blank"⟩).2 =
      ⟨1, 1, 1, 1, 1⟩ ∧ (1 : Nat) ≠ 2 ∧ (1 : Nat) ≠ 0 := by
  exact ⟨rfl, by decide, by decide⟩

/-- C3 (amended).  When the considered anchor has GET text and a `get.php`
href and the first click opens a popup, the registry grows 0 → 1, every
registered popup receives one close call, and the retry is a single direct
navigation of the original page: one click, one goto, registry length still
1 at the end. -/
theorem c3_popup_flow (l : Anchor) (rest : List Anchor) (base o : String) (env : ClickEnv)
    (horigin : matchOrigin base = some o)
    (htext : getTextCondition l = true)
    (hhref : strContains l.href "/get.php" = true)
    (hpopup : env.popupOpens = true) :
    (extractLibgenGetLink (l :: rest) base 0 env).2 = ⟨1, 1, 1, 1, 1⟩ := by
  unfold extractLibgenGetLink
  rw [htext, hhref, horigin, hpopup]
  simp

/-- C3 witness: the popup flow at a concrete page and environment. -/
theorem c3_popup_flow_witness :
    (extractLibgenGetLink [⟨"GET", "/get.php?md5=a&key=b", true⟩]
        "https://libgen.li/ads.php?md5=a" 0
        ⟨true, none, "https://libgen.li/get.php?md5=a&key=b"⟩).2 = ⟨1, 1, 1, 1, 1⟩ :=
  c3_popup_flow ⟨"GET", "/get.php?md5=a&key=b", true⟩ [] "https://libgen.li/ads.php?md5=a"
    "https://libgen.li" ⟨true, none, "https://libgen.li/get.php?md5=a&key=b"⟩
    (by decide) (by decide) (by decide) rfl

/-- The ads.php step invokes at most the ads.php resolver. -/
theorem smartStepAds_ranks (url : String) (env : SmartEnv) (links : List Anchor) :
    ((smartStepAds url env links).2.map mirrorRank).Sublist [2] := by
  unfold smartStepAds
  split
  · split
    · dsimp only
      split
      · simp only [List.map_cons, List.map_nil, mirrorRank]
        decide
      · simp only [List.map_cons, List.map_nil, mirrorRank]
        decide
    · simp only [List.map_nil]
      decide
  · simp only [List.map_nil]
    decide

/-- The randombook step invokes resolvers of ranks 1 and 2, in order. -/
theorem smartStepRandombook_ranks (url : String) (env : SmartEnv) (links : List Anchor) :
    ((smartStepRandombook url env links).2.map mirrorRank).Sublist [1, 2] := by
  unfold smartStepRandombook
  split
  · split
    · simp only [List.map_cons, List.map_nil, mirrorRank]
      decide
    · simpa only [List.map_cons, mirrorRank] using
        List.Sublist.cons₂ 1 (smartStepAds_ranks url env links)
  · exact List.Sublist.cons 1 (smartStepAds_ranks url env links)

/-- C4.  Mirror candidates are tried strictly in ascending priority order
(Anna's Archive direct link, then the randombook redirect mirror, then the
ad-gated ads.php page) and the chain stops at the first success: whenever
the entry page holds the direct-archive link (alongside an ad-gated link)
and its resolver succeeds, the run consists of exactly that one resolver
call — the ad-gated candidate is never invoked. -/
theorem c4_priority_order_first_success :
    (∀ (url : String) (env : SmartEnv),
      ((smartGetLibgenDownload url env).2.map mirrorRank).Sublist [0, 1, 2]) ∧
    (∀ (url : String) (env : SmartEnv) (links : List Anchor) (la : Anchor) (u : String),
      env.filePage = some links →
      links.find? annasCondition = some la →
      (∃ lads ∈ links, adsPhpCondition lads = true) →
      env.annasResolve la.href = some u →
      smartGetLibgenDownload url env = (Except.ok u, [MirrorEv.annas la.href])) := by
  constructor
  · intro url env
    unfold smartGetLibgenDownload
    split
    · simp only [List.map_nil]
      decide
    · rename_i links hlinks
      split
      · split
        · simp only [List.map_cons, List.map_nil, mirrorRank]
          decide
        · simpa only [List.map_cons, mirrorRank] using
            List.Sublist.cons₂ 0 (smartStepRandombook_ranks url env links)
      · exact List.Sublist.cons 0 (smartStepRandombook_ranks url env links)
  · intro url env links la u hfile hfind hads hres
    unfold smartGetLibgenDownload
    rw [hfile]
    simp only [hfind, hres]

/-- C4 witness: with a page holding both an Anna's Archive link and an
ads.php link, a successful direct resolution ends the chain immediately. -/
theorem c4_priority_order_first_success_witness :
    smartGetLibgenDownload "https://libgen.li/file.php?id=1"
        ⟨some [⟨"Anna", "https://annas-archive.org/md5/abc", true⟩,
               ⟨"mirror", "/ads.php?md5=abc", true⟩],
         fun _ => some "https://fast.example/f.epub", fun _ => none, fun _ => none⟩ =
      (Except.ok "https://fast.example/f.epub",
       [MirrorEv.annas "https://annas-archive.org/md5/abc"]) :=
  c4_priority_order_first_success.2 "https://libgen.li/file.php?id=1" _
    [⟨"Anna", "https://annas-archive.org/md5/abc", true⟩, ⟨"mirror", "/ads.php?md5=abc", true⟩]
    ⟨"Anna", "https://annas-archive.org/md5/abc", true⟩ "https://fast.example/f.epub"
    rfl (by decide) ⟨⟨"mirror", "/ads.php?md5=abc", true⟩, by decide, by decide⟩ rfl

/-- C5.  Counterexample: a trusted-archive request whose entry URL does not
start with `http` slips past the fast-path guard and is proxied — the route
performs an HTTP fetch of the file instead of returning the entry URL as a
redirect, so the "zero HTTP fetches for every trusted request" claim fails. -/
theorem c5_non_http_trusted_url_is_fetched :
    downloadPOST "archive" "archive.org/book.epub" "book.epub" "epub"
        ⟨none, none, ⟨false, false, none, []⟩, true, FetchErr.other⟩ =
      (RouteResponse.fileAttachment (FileSrc.fetched "archive.org/book.epub") "book.epub",
       [Ev.proxyFetch]) ∧
    trustedSources.contains "archive" = true ∧
    [Ev.proxyFetch] ≠ ([] : List Ev) := by
  exact ⟨rfl, rfl, by decide⟩

/-- C5 (amended).  For every trusted-archive request whose entry URL starts
with `http`, the route returns the entry URL unchanged as a redirect and
performs zero external calls: no serverless scrape, no browser launch, no
proxy fetch. -/
theorem c5_trusted_fast_path (source dl fileName fileFormat : String) (env : RouteEnv)
    (htrust : trustedSources.contains source = true)
    (hhttp : jsStartsWith dl "http" = true) :
    downloadPOST source dl fileName fileFormat env =
      (RouteResponse.redirectTo dl fileName, []) := by
  have hdl : ¬(dl = "") := by
    intro h
    subst h
    exact absurd hhttp (by decide)
  have hsrc : ¬(source = "libgen") := by
    intro h
    subst h
    exact absurd htrust (by decide)
  unfold downloadPOST finishDownload
  rw [if_neg hdl, if_neg hsrc, htrust, hhttp]
  simp

/-- C5 witness: a concrete http trusted request takes the fast path. -/
theorem c5_trusted_fast_path_witness :
    downloadPOST "archive" "https://archive.org/download/x/x.epub" "x.epub" "epub"
        ⟨none, none, ⟨false, false, none, []⟩, true, FetchErr.other⟩ =
      (RouteResponse.redirectTo "https://archive.org/download/x/x.epub" "x.epub", []) :=
  c5_trusted_fast_path "archive" "https://archive.org/download/x/x.epub" "x.epub" "epub"
    ⟨none, none, ⟨false, false, none, []⟩, true, FetchErr.other⟩ rfl rfl

/-- C6.  Whenever the LibGen entry page holds no recognized mirror pattern
(no `ads.php` link at all) and the Playwright fallback also fails, the
route returns the structured manual-fallback failure carrying the original
entry URL — the model is a total function, so no exception escapes. -/
theorem c6_no_mirror_structured_failure (dl fileName fileFormat : String) (env : RouteEnv)
    (fl : List Anchor)
    (hdl : dl ≠ "")
    (hfile : env.filePage = some fl)
    (hnomirror : ∀ l ∈ fl, serverlessAdsCondition l = false)
    (hpw : ∃ m2, (playwrightGetDownload env.pw).1 = Except.error m2) :
    downloadPOST "libgen" dl fileName fileFormat env =
      (libgenManualResponse dl
        "LibGen serverless scraping failed: No ads.php link found on file.php page",
       [Ev.serverless, Ev.playwrightEv]) := by
  obtain ⟨m2, hm2⟩ := hpw
  have hfilter : fl.filter serverlessAdsCondition = [] := by
    rw [List.filter_eq_nil_iff]
    intro a ha
    simp [hnomirror a ha]
  unfold downloadPOST getLibgenDownloadServerless
  rw [if_neg hdl, if_pos rfl]
  simp only [hfile, hfilter, hm2]

/-- C6 witness: a concrete mirror-free page yields the structured failure. -/
theorem c6_no_mirror_structured_failure_witness :
    downloadPOST "libgen" "https://libgen.li/file.php?id=7" "b.epub" "epub"
        ⟨some [⟨"Tor mirror", "http://example.onion/x", true⟩], none,
         ⟨false, false, none, []⟩, true, FetchErr.other⟩ =
      (libgenManualResponse "https://libgen.li/file.php?id=7"
        "LibGen serverless scraping failed: No ads.php link found on file.php page",
       [Ev.serverless, Ev.playwrightEv]) :=
  c6_no_mirror_structured_failure "https://libgen.li/file.php?id=7" "b.epub" "epub"
    ⟨some [⟨"Tor mirror", "http://example.onion/x", true⟩], none,
     ⟨false, false, none, []⟩, true, FetchErr.other⟩
    [⟨"Tor mirror", "http://example.onion/x", true⟩]
    (by decide) rfl (by decide) ⟨"No download link found after Playwright navigation", rfl⟩

/-- C7.  Counterexample: in a document whose first selector
(`a:contains("GET")`) matches exactly one anchor — a relative
`/get.php` link — the extraction nevertheless returns the cloudflare link
matched only by a **later** selector, because the first match fails the
absolute-URL filter.  This contradicts the claim that no link from a later
selector is returned when an earlier selector matched, and the returned
link is not among the first matching selector's links. -/
theorem c7_later_selector_wins :
    resolveAdsPhpExtract
        [⟨"GET", "/get.php?md5=a&key=b", true⟩,
         ⟨"mirror", "https://cloudflare-ipfs.example/f.epub", true⟩] =
      some "https://cloudflare-ipfs.example/f.epub" ∧
    List.filter (fun (l : Anchor) => strContains l.text "GET")
        [⟨"GET", "/get.php?md5=a&key=b", true⟩,
         ⟨"mirror", "https://cloudflare-ipfs.example/f.epub", true⟩] =
      [⟨"GET", "/get.php?md5=a&key=b", true⟩] ∧
    ("https://cloudflare-ipfs.example/f.epub" : String) ≠ "/get.php?md5=a&key=b" := by
  exact ⟨rfl, rfl, by decide⟩

/-- C7 (amended).  The selector loop returns at most one link: the first
match of the earliest selector whose first match passes the absolute-URL
filter (`startsWith('http')`, no `.onion`); every earlier selector either
matched nothing or its first match was rejected by that filter — so
selectors are not merged, but a matching selector does not stop the chain
when its first match is filtered out. -/
theorem c7_first_accepted_selector (doc : List Anchor) (sels : List (Anchor → Bool))
    (u : String) (h : selectorLoop doc sels = some u) :
    ∃ pre sel post l, sels = pre ++ sel :: post ∧ doc.find? sel = some l ∧
      u = l.href ∧ adsLinkFilter l.href = true ∧
      ∀ s ∈ pre, doc.find? s = none ∨
        ∃ l', doc.find? s = some l' ∧ adsLinkFilter l'.href = false := by
  induction sels with
  | nil => simp [selectorLoop] at h
  | cons sel rest ih =>
    unfold selectorLoop at h
    split at h
    · rename_i l hf
      by_cases hfil : adsLinkFilter l.href = true
      · rw [if_pos hfil] at h
        injection h with h
        refine ⟨[], sel, rest, l, rfl, hf, h.symm, hfil, ?_⟩
        intro s hs
        simp at hs
      · rw [if_neg hfil] at h
        obtain ⟨pre, sel', post, l', hs, hfind, hu, hfl, hpre⟩ := ih h
        refine ⟨sel :: pre, sel', post, l', by rw [hs]; rfl, hfind, hu, hfl, ?_⟩
        intro s hsmem
        rcases List.mem_cons.mp hsmem with h1 | h2
        · subst h1
          exact Or.inr ⟨l, hf, Bool.eq_false_iff.mpr hfil⟩
        · exact hpre s h2
    · rename_i hf
      obtain ⟨pre, sel', post, l', hs, hfind, hu, hfl, hpre⟩ := ih h
      refine ⟨sel :: pre, sel', post, l', by rw [hs]; rfl, hfind, hu, hfl, ?_⟩
      intro s hsmem
      rcases List.mem_cons.mp hsmem with h1 | h2
      · subst h1
        exact Or.inl hf
      · exact hpre s h2

/-- C7 witness: the characterization applied to the concrete ads.php
selector list and a concrete document. -/
theorem c7_first_accepted_selector_witness :
    ∃ (pre : List (Anchor → Bool)) (sel : Anchor → Bool)
      (post : List (Anchor → Bool)) (l : Anchor),
      adsSelectors = pre ++ sel :: post ∧
      List.find? sel
          [(⟨"GET", "/get.php?md5=a&key=b", true⟩ : Anchor),
           ⟨"mirror", "https://cloudflare-ipfs.example/f.epub", true⟩] = some l ∧
      "https://cloudflare-ipfs.example/f.epub" = l.href ∧
      adsLinkFilter l.href = true ∧
      ∀ s ∈ pre,
        List.find? s
            [(⟨"GET", "/get.php?md5=a&key=b", true⟩ : Anchor),
             ⟨"mirror", "https://cloudflare-ipfs.example/f.epub", true⟩] = none ∨
        ∃ l', List.find? s
            [(⟨"GET", "/get.php?md5=a&key=b", true⟩ : Anchor),
             ⟨"mirror", "https://cloudflare-ipfs.example/f.epub", true⟩] = some l' ∧
          adsLinkFilter l'.href = false :=
  c7_first_accepted_selector
    [⟨"GET", "/get.php?md5=a&key=b", true⟩,
     ⟨"mirror", "https://cloudflare-ipfs.example/f.epub", true⟩]
    adsSelectors "https://cloudflare-ipfs.example/f.epub" rfl

/-- Every response produced by the shared tail of the route satisfies the
failure-URL discipline: it never produces the manual fallback, and its 500
response carries only a non-`data:` http URL. -/
theorem finishDownload_failureUrlOk (dl source fileName fileFormat actual : String)
    (env : RouteEnv) (evs : List Ev) :
    failureUrlOk dl (finishDownload source fileName fileFormat actual env evs).1 := by
  unfold finishDownload
  split
  · trivial
  · split
    · trivial
    · split
      · trivial
      · by_cases hc : actual ≠ "" ∧ jsStartsWith actual "http" = true ∧
            jsStartsWith actual "data:" = false
        · rw [if_pos hc]
          exact ⟨hc.2.1, hc.2.2⟩
        · rw [if_neg hc]
          trivial

/-- C8 (amended).  On every request and environment, the LibGen
manual-fallback failure carries the **original** entry URL (`libgenUrl`),
while the generic 500 failure carries a URL only when the current candidate
URL — possibly the resolved URL, not the original — is a non-`data:` http
URL; no other failure reporting is guaranteed. -/
theorem c8_failure_url_reporting (source dl fileName fileFormat : String) (env : RouteEnv) :
    failureUrlOk dl (downloadPOST source dl fileName fileFormat env).1 := by
  unfold downloadPOST
  by_cases hdl : dl = ""
  · rw [if_pos hdl]
    trivial
  · rw [if_neg hdl]
    by_cases hsrc : source = "libgen"
    · rw [if_pos hsrc]
      split
      · split
        · split
          · exact finishDownload_failureUrlOk dl source fileName fileFormat _ env _
          · exact rfl
        · exact finishDownload_failureUrlOk dl source fileName fileFormat _ env _
      · split
        · exact finishDownload_failureUrlOk dl source fileName fileFormat _ env _
        · exact rfl
    · rw [if_neg hsrc]
      exact finishDownload_failureUrlOk dl source fileName fileFormat dl env _

/-- C8.  Counterexample: a LibGen request that resolves via the serverless
scraper and then fails the proxied file fetch returns a 500 whose attached
URL is the **resolved** `get.php` URL, not the original entry URL — the
original URL appears nowhere in the response, contradicting the claim that
every failure includes the original entry URL. -/
theorem c8_resolved_url_not_original :
    downloadPOST "libgen" "https://libgen.rs/file.php?id=1" "b.epub" "epub"
        ⟨some [⟨"Libgen mirror", "/ads.php?md5=a", true⟩],
         some [⟨"GET", "/get.php?md5=a&key=b", true⟩],
         ⟨false, false, none, []⟩, false, FetchErr.notFound⟩ =
      (RouteResponse.serverError "File not found at download URL"
        (some "https://libgen.li/get.php?md5=a&key=b"),
       [Ev.serverless, Ev.proxyFetch]) ∧
    ("https://libgen.li/get.php?md5=a&key=b" : String) ≠ "https://libgen.rs/file.php?id=1" := by
  exact ⟨rfl, by decide⟩

/-- C9.  The serverless resolver's output never depends on the host of the
input file-info-page URL, and when every href on both fetched pages is
relative, both the intermediate ads.php fetch URL and the returned download
URL are built on the hard-coded base `https://libgen.li` — so an input
hosted on any other mirror (e.g. libgen.rs) still yields a libgen.li URL. -/
theorem c9_hardcoded_libgen_li_base :
    (∀ (u1 u2 : String) (env : ServerlessEnv),
      getLibgenDownloadServerless u1 env = getLibgenDownloadServerless u2 env) ∧
    (∀ (fileUrl : String) (env : ServerlessEnv) (fl al : List Anchor) (u : String),
      env.filePage = some fl →
      env.adsPage = some al →
      (∀ l ∈ fl, jsStartsWith l.href "http" = false) →
      (∀ l ∈ al, jsStartsWith l.href "http" = false) →
      (getLibgenDownloadServerless fileUrl env).1 = Except.ok u →
      (∃ s, u = "https://libgen.li" ++ s) ∧
      (∀ a, (getLibgenDownloadServerless fileUrl env).2 = some a →
        ∃ s, a = "https://libgen.li" ++ s)) := by
  constructor
  · intro u1 u2 env
    rfl
  · intro fileUrl env fl al u hfl hal hflrel halrel hok
    have hget : ∀ (g : Anchor), g ∈ al →
        ∃ s, serverlessGetUrl g.href = "https://libgen.li" ++ s := by
      intro g hg
      have hrel := halrel g hg
      unfold serverlessGetUrl
      rw [hrel]
      simp only [Bool.false_eq_true, if_false]
      by_cases hslash : jsStartsWith g.href "/" = true
      · rw [if_pos hslash]
        exact ⟨g.href, rfl⟩
      · rw [if_neg hslash]
        refine ⟨"/" ++ g.href, ?_⟩
        rw [show ("https://libgen.li/" : String) = "https://libgen.li" ++ "/" by decide,
          String.append_assoc]
    have hads : ∀ (a0 : Anchor), a0 ∈ fl →
        ∃ s, serverlessAdsUrl a0.href = "https://libgen.li" ++ s := by
      intro a0 ha0
      have hrel := hflrel a0 ha0
      unfold serverlessAdsUrl
      rw [hrel]
      simp only [Bool.false_eq_true, if_false]
      exact ⟨(if jsStartsWith a0.href "/" then "" else "/") ++ a0.href,
        String.append_assoc _ _ _⟩
    unfold getLibgenDownloadServerless at hok ⊢
    simp only [hfl, hal] at hok ⊢
    cases hfilter : fl.filter serverlessAdsCondition with
    | nil =>
      simp only [hfilter] at hok
      simp at hok
    | cons a0 rest0 =>
      simp only [hfilter] at hok ⊢
      have ha0mem : a0 ∈ fl :=
        List.mem_of_mem_filter (hfilter ▸ List.mem_cons_self a0 rest0)
      cases hfilter2 : al.filter serverlessGetCondition with
      | nil =>
        simp only [hfilter2] at hok
        simp at hok
      | cons g0 rest2 =>
        simp only [hfilter2] at hok ⊢
        have hg0mem : g0 ∈ al :=
          List.mem_of_mem_filter (hfilter2 ▸ List.mem_cons_self g0 rest2)
        simp only [Except.ok.injEq] at hok
        constructor
        · obtain ⟨s, hs⟩ := hget g0 hg0mem
          exact ⟨s, hok ▸ hs⟩
        · intro a ha
          simp only [Option.some.injEq] at ha
          obtain ⟨s, hs⟩ := hads a0 ha0mem
          exact ⟨s, ha ▸ hs⟩

/-- C9 witness: a file page fetched from libgen.rs with relative mirror
links still resolves to a libgen.li download URL. -/
theorem c9_hardcoded_libgen_li_base_witness :
    ∃ s, "https://libgen.li/get.php?md5=a&key=b" = "https://libgen.li" ++ s :=
  (c9_hardcoded_libgen_li_base.2 "https://libgen.rs/file.php?id=1"
    ⟨some [⟨"Libgen mirror", "/ads.php?md5=a", true⟩],
     some [⟨"GET", "/get.php?md5=a&key=b", true⟩]⟩
    [⟨"Libgen mirror", "/ads.php?md5=a", true⟩]
    [⟨"GET", "/get.php?md5=a&key=b", true⟩]
    "https://libgen.li/get.php?md5=a&key=b"
    rfl rfl (by decide) (by decide) rfl).1

/-- Events recorded before the shared route tail survive into its result. -/
theorem mem_finishDownload_events (source fileName fileFormat actual : String)
    (env : RouteEnv) (evs : List Ev) (e : Ev) (he : e ∈ evs) :
    e ∈ (finishDownload source fileName fileFormat actual env evs).2 := by
  unfold finishDownload
  split
  · exact he
  · split
    · exact he
    · split
      · exact List.mem_append_left _ he
      · exact List.mem_append_left _ he

/-- C10.  Counterexample: when the serverless step fails and the Playwright
fallback returns the entry URL itself, the route does **not** treat the
unchanged URL as a failure — it proxies it and returns a 200 file response,
so a successful aggregator resolution can return a URL equal to the entry
URL, contradicting the claim. -/
theorem c10_fallback_result_unchecked :
    downloadPOST "libgen" "https://libgen.li/file.php?id=9" "b.epub" "epub"
        ⟨some [], none,
         ⟨false, false, some "https://libgen.li/file.php?id=9", []⟩, true, FetchErr.other⟩ =
      (RouteResponse.fileAttachment
        (FileSrc.fetched "https://libgen.li/file.php?id=9") "b.epub",
       [Ev.serverless, Ev.playwrightEv, Ev.proxyFetch]) := by
  exact rfl

/-- C10 (amended).  Only the **serverless** resolution result is compared
against the entry URL: whenever the serverless scraper returns exactly the
entry URL, the route treats it as a failure and invokes the Playwright
fallback; the fallback's own result is never re-checked against the entry
URL. -/
theorem c10_unchanged_serverless_result_is_failure (dl fileName fileFormat : String)
    (env : RouteEnv)
    (hdl : dl ≠ "")
    (hres : (getLibgenDownloadServerless dl ⟨env.filePage, env.adsPage⟩).1 = Except.ok dl) :
    Ev.playwrightEv ∈ (downloadPOST "libgen" dl fileName fileFormat env).2 := by
  unfold downloadPOST
  rw [if_neg hdl, if_pos rfl]
  rw [hres]
  simp only []
  rw [if_pos (Or.inr trivial)]
  split
  · exact mem_finishDownload_events _ _ _ _ _ _ _ (by simp)
  · simp

/-- C10 witness: a concrete environment in which the serverless scraper
returns exactly the entry URL, which triggers the Playwright fallback. -/
theorem c10_unchanged_serverless_result_is_failure_witness :
    Ev.playwrightEv ∈ (downloadPOST "libgen" "https://libgen.li/get.php?md5=a&key=b"
      "b.epub" "epub"
      ⟨some [⟨"Libgen mirror", "/ads.php?md5=a", true⟩],
       some [⟨"GET", "/get.php?md5=a&key=b", true⟩],
       ⟨false, false, none, []⟩, true, FetchErr.other⟩).2 :=
  c10_unchanged_serverless_result_is_failure "https://libgen.li/get.php?md5=a&key=b"
    "b.epub" "epub"
    ⟨some [⟨"Libgen mirror", "/ads.php?md5=a", true⟩],
     some [⟨"GET", "/get.php?md5=a&key=b", true⟩],
     ⟨false, false, none, []⟩, true, FetchErr.other⟩
    (by decide) rfl

end EbookFinder
